import Mathlib

/-
Verification development for the checkpoint-to-RTNeural converter.

The repository holds two Python conversion scripts:
  * orbax_to_rtneural.py  -- functions extract_layer_params (lines 36-89) and
    convert_to_rtneural (lines 92-200);
  * convert_to_rtneural.py -- function convert_policy (lines 10-82).

Both operate on JSON-like trees (Python dicts / lists / numbers / strings /
booleans loaded from a JSON document).  We embed such trees as the inductive
type J below, with rational numbers standing for JSON numerics (every numeric
literal in the source is an exact decimal).  Python dicts are association
lists in insertion order with unique keys; dict lookup is first-match
association lookup.  Fallible Python code (raised exceptions) is embedded as
Except String.  The numpy "tolist" coercions in the source are identity on
plain JSON data and the claims' input domain is plain JSON data, so they are
the identity in this embedding.  Python `in` applied to a non-container and
item access on non-subscriptable values raise TypeError in Python; the claims
quantify over mappings only, and those branches are embedded as noted in the
doc comments of the corresponding definitions.
-/

/-- A JSON-like value: the raw tree both converters operate on.  Numbers are
rationals (all numerics in the source are exact decimals), objects are
association lists in insertion order, mirroring Python dicts. -/
inductive J where
  | num (q : Rat)
  | str (s : String)
  | bool (b : Bool)
  | arr (xs : List J)
  | obj (kvs : List (String × J))

/-- First-match association lookup: Python dict indexing / `.get`. -/
def jlookup : List (String × J) → String → Option J
  | [], _ => none
  | (k', v) :: rest, k => if k' == k then some v else jlookup rest k

/-- Python `d[k]` / `d.get(k)` on a mapping; `none` when the receiver is not a
mapping (in Python, item access on a non-subscriptable value raises; the
claims' domain is mappings). -/
def J.get? : J → String → Option J
  | J.obj kvs, k => jlookup kvs k
  | _, _ => none

/-- Python `k in d` for a mapping receiver (key membership). -/
def J.hasKey (j : J) (k : String) : Bool :=
  (j.get? k).isSome

/-- Python `d.get(k, default)`. -/
def J.getD (j : J) (k : String) (d : J) : J :=
  (j.get? k).getD d

/-- Python `len` on containers (list, dict, string).  Python raises TypeError
on numbers/booleans; those are outside the tensor-like input domain. -/
def pyLen : J → Nat
  | J.arr xs => xs.length
  | J.obj kvs => kvs.length
  | J.str s => s.length
  | _ => 0

/-- Python truthiness, as used by `len(kernel[0]) if kernel else len(bias)`
in orbax_to_rtneural.py line 185. -/
def pyTruthy : J → Bool
  | J.arr xs => !xs.isEmpty
  | J.obj kvs => !kvs.isEmpty
  | J.str s => !s.isEmpty
  | J.num q => !(q == 0)
  | J.bool b => b

/-- Python `xs[0]` on a sequence known non-empty (guarded by truthiness at the
call site, orbax_to_rtneural.py line 185); the fallback is unreachable there. -/
def pyHead0 : J → J
  | J.arr (x :: _) => x
  | _ => J.arr []

/-- Python `xs[0]` with the IndexError behaviour, used for `kernel[0]` in
convert_to_rtneural.py line 74, where the kernel may be empty. -/
def pyHeadE : J → Except String J
  | J.arr (x :: _) => Except.ok x
  | J.arr [] => Except.error "IndexError: list index out of range"
  | _ => Except.error "TypeError: object is not subscriptable"

/-- One extracted layer: the `{'kernel': ..., 'bias': ...}` dict appended by
extract_layer_params (orbax_to_rtneural.py lines 83-86). -/
structure LayerKB where
  kernel : J
  bias : J

/-- Navigation to the layer dict, orbax_to_rtneural.py lines 54-60:
`params['params']['params']` when doubly wrapped, `params['params']` when
singly wrapped, else `params` itself. -/
def resolve_layer_dict (params : J) : J :=
  if params.hasKey "params" && (params.getD "params" (J.obj [])).hasKey "params" then
    (params.getD "params" (J.obj [])).getD "params" (J.obj [])
  else if params.hasKey "params" then
    params.getD "params" (J.obj [])
  else
    params

/-- Candidate layer-key probing at index i, orbax_to_rtneural.py lines 66-71:
`hidden_{i}` first, then the numeric string `{i}`, then `Dense_{i}`;
`none` means the while loop breaks. -/
def select_layer_name (layer_dict : J) (i : Nat) : Option String :=
  if layer_dict.hasKey ("hidden_" ++ toString i) then
    some ("hidden_" ++ toString i)
  else if layer_dict.hasKey (toString i) then
    some (toString i)
  else if layer_dict.hasKey ("Dense_" ++ toString i) then
    some ("Dense_" ++ toString i)
  else
    none

/-- The while loop of extract_layer_params (orbax_to_rtneural.py lines 64-87),
with explicit fuel.  Each iteration consumes a distinct key of the layer dict
(the candidate names at distinct indices are pairwise distinct strings), so
the loop always breaks within `pyLen layer_dict` iterations and the fuel of
`pyLen layer_dict + 1` supplied by extract_layer_params never runs out; the
fuel-exhaustion branch is unreachable.  A discovered layer entry missing
`kernel` or `bias` raises KeyError in Python (lines 74-75). -/
def extract_loop (layer_dict : J) : Nat → Nat → Except String (List LayerKB)
  | _, 0 => Except.error "unreachable: fuel exhausted"
  | i, fuel + 1 =>
    match select_layer_name layer_dict i with
    | none => Except.ok []
    | some name =>
      match layer_dict.get? name with
      | none => Except.error "unreachable: selected key is present"
      | some lp =>
        match lp.get? "kernel" with
        | none => Except.error "KeyError: kernel"
        | some kernel =>
          match lp.get? "bias" with
          | none => Except.error "KeyError: bias"
          | some bias =>
            (extract_loop layer_dict (i + 1) fuel).map
              (fun rest => LayerKB.mk kernel bias :: rest)

/-- extract_layer_params, orbax_to_rtneural.py lines 36-89: navigate to the
layer dict, then collect layers from index 0 upward. -/
def extract_layer_params (params : J) : Except String (List LayerKB) :=
  let layer_dict := resolve_layer_dict params
  extract_loop layer_dict 0 (pyLen layer_dict + 1)

/-- The configuration surface of convert_to_rtneural: exactly its keyword
parameters with their source defaults (orbax_to_rtneural.py lines 92-103).
Note that the source function has no use_imu parameter. -/
structure Config where
  observation_size : Rat
  observation_history : Rat
  kp : Rat
  kd : Rat
  action_scale : Rat
  activation : String
  default_joint_pos : Option (List Rat)
  joint_upper_limits : Option (List Rat)
  joint_lower_limits : Option (List Rat)

/-- The default keyword-argument values of convert_to_rtneural
(orbax_to_rtneural.py lines 94-102). -/
def defaultConfig : Config :=
  { observation_size := 720
    observation_history := 20
    kp := 7.5
    kd := 0.25
    action_scale := 0.5
    activation := "elu"
    default_joint_pos := none
    joint_upper_limits := none
    joint_lower_limits := none }

/-- The Pupper default joint positions (orbax_to_rtneural.py lines 122-123). -/
def pupper_default_joint_pos : List Rat :=
  [0.26, 0.0, -0.52, -0.26, 0.0, 0.52, 0.26, 0.0, -0.52, -0.26, 0.0, 0.52]

/-- The Pupper joint upper limits (orbax_to_rtneural.py lines 125-126). -/
def pupper_joint_upper_limits : List Rat :=
  [0.8, 1.2, 0.0, 0.0, 1.2, 1.2, 0.8, 1.2, 0.0, 0.0, 1.2, 1.2]

/-- The Pupper joint lower limits (orbax_to_rtneural.py lines 128-129). -/
def pupper_joint_lower_limits : List Rat :=
  [-0.0, -1.2, -1.2, -0.8, -1.2, -0.0, -0.0, -1.2, -1.2, -0.8, -1.2, -0.0]

/-- Top-level source destructuring, orbax_to_rtneural.py lines 131-141: an
ordered sequence of length at least 2 yields (element 0 = normalizer data,
element 1 = model data); a shorter sequence raises ValueError; a mapping
yields (`source.get('normalizer', {})`, source); any other value has no
`.get` attribute and raises in Python. -/
def resolveSource : J → Except String (J × J)
  | J.arr (a :: b :: _) => Except.ok (a, b)
  | J.arr xs =>
      Except.error ("Unexpected list structure with " ++ toString xs.length ++ " elements")
  | J.obj kvs => Except.ok ((jlookup kvs "normalizer").getD (J.obj []), J.obj kvs)
  | _ => Except.error "AttributeError: object has no attribute get"

/-- Policy-params resolution, orbax_to_rtneural.py lines 144-147: descend into
a `policy` key when the model data is a mapping holding one, else use the
model data as-is. -/
def resolve_policy (model_data : J) : J :=
  match model_data with
  | J.obj kvs =>
    match jlookup kvs "policy" with
    | some p => p
    | none => J.obj kvs
  | md => md

/-- Normalizer extraction, orbax_to_rtneural.py lines 149-157: from a mapping,
keep `mean` and `std` when present; from a non-mapping, the result is empty.
The tolist coercion is the identity on plain JSON data. -/
def build_normalizer (normalizer_data : J) : J :=
  match normalizer_data with
  | J.obj kvs =>
    J.obj
      ((match jlookup kvs "mean" with
        | some m => [("mean", m)]
        | none => []) ++
       (match jlookup kvs "std" with
        | some s => [("std", s)]
        | none => []))
  | _ => J.obj []

/-- One emitted layer record, orbax_to_rtneural.py lines 180-196:
`in_features = len(kernel)`, `out_features = len(kernel[0]) if kernel else
len(bias)`, empty activation on the last layer (`i == n-1`), weights packed
as `[kernel, bias]`. -/
def mk_layer_record (activation : String) (n : Nat) (i : Nat) (l : LayerKB) : J :=
  let in_features := pyLen l.kernel
  let out_features := if pyTruthy l.kernel then pyLen (pyHead0 l.kernel) else pyLen l.bias
  J.obj
    [("type", J.str "dense"),
     ("shape", J.arr [J.num (in_features : Rat), J.num (out_features : Rat)]),
     ("activation", J.str (if i == n - 1 then "" else activation)),
     ("weights", J.arr [l.kernel, l.bias])]

/-- The `for i, layer in enumerate(layers)` emission loop,
orbax_to_rtneural.py lines 179-198. -/
def build_layer_records (activation : String) (n : Nat) : Nat → List LayerKB → List J
  | _, [] => []
  | i, l :: rest =>
    mk_layer_record activation n i l :: build_layer_records activation n (i + 1) rest

/-- The canonical output document, orbax_to_rtneural.py lines 165-198: the
fixed field skeleton in source insertion order, with None keyword arguments
replaced by the Pupper defaults (lines 121-129) and `use_imu` hardcoded to
True (line 171). -/
def build_doc (cfg : Config) (normalizer : J) (layers : List LayerKB) : J :=
  let djp := cfg.default_joint_pos.getD pupper_default_joint_pos
  let jul := cfg.joint_upper_limits.getD pupper_joint_upper_limits
  let jll := cfg.joint_lower_limits.getD pupper_joint_lower_limits
  J.obj
    [("in_shape", J.arr [J.num 1, J.num cfg.observation_size]),
     ("observation_history", J.num cfg.observation_history),
     ("kp", J.num cfg.kp),
     ("kd", J.num cfg.kd),
     ("action_scale", J.num cfg.action_scale),
     ("use_imu", J.bool true),
     ("default_joint_pos", J.arr (djp.map J.num)),
     ("joint_upper_limits", J.arr (jul.map J.num)),
     ("joint_lower_limits", J.arr (jll.map J.num)),
     ("normalizer", normalizer),
     ("layers", J.arr (build_layer_records cfg.activation layers.length 0 layers))]

/-- The conversion pipeline after source destructuring,
orbax_to_rtneural.py lines 143-200: resolve the policy params, extract the
layers, raise ValueError on an empty layer list (lines 161-162), and build
the output document.  No chaining-invariant check appears anywhere in the
source. -/
def convert_core (cfg : Config) (normalizer_data model_data : J) : Except String J :=
  match extract_layer_params (resolve_policy model_data) with
  | Except.error e => Except.error e
  | Except.ok layers =>
    if layers.isEmpty then
      Except.error "No layers found in checkpoint. Check the structure."
    else
      Except.ok (build_doc cfg (build_normalizer normalizer_data) layers)

/-- convert_to_rtneural, orbax_to_rtneural.py lines 92-200. -/
def convert_to_rtneural (source : J) (cfg : Config) : Except String J :=
  match resolveSource source with
  | Except.error e => Except.error e
  | Except.ok (nd, md) => convert_core cfg nd md

/-- The fixed layer-name list of convert_policy, convert_to_rtneural.py
line 59. -/
def layer_names : List String :=
  ["hidden_0", "hidden_1", "hidden_2", "hidden_3", "hidden_4"]

/-- The layer loop of convert_policy, convert_to_rtneural.py lines 61-78:
for each fixed name, read kernel and bias (KeyError when missing), index
`kernel[0]` (IndexError on an empty kernel), and emit a record with key
order type, activation, shape, weights and activation "" on the last
(fifth) layer, "elu" otherwise. -/
def build_policy_layers (params : J) : List String → Nat → Except String (List J)
  | [], _ => Except.ok []
  | name :: rest, i =>
    match params.get? name with
    | none => Except.error ("KeyError: " ++ name)
    | some lp =>
      match lp.get? "kernel" with
      | none => Except.error "KeyError: kernel"
      | some kernel =>
        match lp.get? "bias" with
        | none => Except.error "KeyError: bias"
        | some bias =>
          match pyHeadE kernel with
          | Except.error e => Except.error e
          | Except.ok k0 =>
            (build_policy_layers params rest (i + 1)).map
              (fun rs =>
                J.obj
                  [("type", J.str "dense"),
                   ("activation", J.str (if i == layer_names.length - 1 then "" else "elu")),
                   ("shape", J.arr [J.num (pyLen kernel : Rat), J.num (pyLen k0 : Rat)]),
                   ("weights", J.arr [kernel, bias])] :: rs)

/-- convert_policy, convert_to_rtneural.py lines 10-82, modelled as the
in-memory document transformation (file reading/writing stripped).  The
already-in-RTNeural-format branch (lines 15-26) re-reads a filesystem backup
or returns without output; it is embedded as a failure to produce a document,
and the claims' input domain excludes it.  Field access `data['policy']
['params']['params']` raises KeyError when a key is missing. -/
def convert_policy (data : J) : Except String J :=
  if data.hasKey "layers" && data.hasKey "in_shape" then
    Except.error "already in RTNeural format: filesystem backup path not modelled"
  else
    match data.get? "policy" with
    | none => Except.error "KeyError: policy"
    | some p =>
      match p.get? "params" with
      | none => Except.error "KeyError: params"
      | some pp =>
        match pp.get? "params" with
        | none => Except.error "KeyError: params"
        | some params =>
          let normalizer := (data.get? "normalizer").getD (J.obj [])
          match build_policy_layers params layer_names 0 with
          | Except.error e => Except.error e
          | Except.ok recs =>
            Except.ok
              (J.obj
                [("in_shape", J.arr [J.num 1, J.num 720]),
                 ("observation_history", J.num 20),
                 ("kp", J.num 7.5),
                 ("kd", J.num 0.25),
                 ("action_scale", J.num 0.5),
                 ("use_imu", J.bool true),
                 ("default_joint_pos",
                   J.arr ((
                     [0.26, 0.0, -0.52, -0.26, 0.0, 0.52,
                      0.26, 0.0, -0.52, -0.26, 0.0, 0.52] : List Rat).map J.num)),
                 ("joint_upper_limits",
                   J.arr ((
                     [0.8, 1.2, 0.0, 0.0, 1.2, 1.2,
                      0.8, 1.2, 0.0, 0.0, 1.2, 1.2] : List Rat).map J.num)),
                 ("joint_lower_limits",
                   J.arr ((
                     [-0.0, -1.2, -1.2, -0.8, -1.2, -0.0,
                      -0.0, -1.2, -1.2, -0.8, -1.2, -0.0] : List Rat).map J.num)),
                 ("normalizer", normalizer),
                 ("layers", J.arr recs)])

/-
Python `==` on dicts ignores key order.  The two converters emit the same
layer-record fields in different insertion orders, so document equality in
the Python sense is equality after recursively sorting object keys.  canon
below is that canonicalization; `canon a = canon b` is Python `a == b` for
duplicate-key-free trees, which is the only kind either converter builds.
-/

/-- Lexicographic comparison of character lists by code point. -/
def charListLe : List Char → List Char → Bool
  | [], _ => true
  | _ :: _, [] => false
  | a :: as, b :: bs =>
    if a.toNat < b.toNat then true
    else if b.toNat < a.toNat then false
    else charListLe as bs

/-- Lexicographic string comparison by code point. -/
def strLe (a b : String) : Bool := charListLe a.data b.data

/-- Insertion step of key-sorting an association list. -/
def insertKv (p : String × J) : List (String × J) → List (String × J)
  | [] => [p]
  | q :: rest => if strLe p.1 q.1 then p :: q :: rest else q :: insertKv p rest

/-- Insertion sort of an association list by key. -/
def sortKvs : List (String × J) → List (String × J)
  | [] => []
  | p :: rest => insertKv p (sortKvs rest)

mutual
/-- Key-order canonicalization of a JSON tree: recursively sort every object
by key.  Two duplicate-key-free trees are equal as Python values exactly when
their canonicalizations are equal. -/
def canon : J → J
  | J.num q => J.num q
  | J.str s => J.str s
  | J.bool b => J.bool b
  | J.arr xs => J.arr (canonList xs)
  | J.obj kvs => J.obj (sortKvs (canonKvs kvs))
/-- Pointwise canonicalization of an array's elements. -/
def canonList : List J → List J
  | [] => []
  | x :: xs => canon x :: canonList xs
/-- Canonicalization of an object's values. -/
def canonKvs : List (String × J) → List (String × J)
  | [] => []
  | (k, v) :: rest => (k, canon v) :: canonKvs rest
end

/-- The concrete end-to-end input of the spec's testable-properties section:
a doubly wrapped two-layer policy plus a mean/std normalizer. -/
def c1_input : J :=
  J.obj
    [("policy", J.obj [("params", J.obj [("params", J.obj
        [("hidden_0", J.obj
            [("kernel", J.arr [J.arr [J.num 1, J.num 2], J.arr [J.num 3, J.num 4]]),
             ("bias", J.arr [J.num 0, J.num 0])]),
         ("hidden_1", J.obj
            [("kernel", J.arr [J.arr [J.num 5], J.arr [J.num 6]]),
             ("bias", J.arr [J.num 1])])])])]),
     ("normalizer", J.obj [("mean", J.arr [J.num 0, J.num 0]), ("std", J.arr [J.num 1, J.num 1])])]

/-- The full document convert_to_rtneural produces for c1_input under the
default configuration. -/
def c1_doc : J :=
  J.obj
    [("in_shape", J.arr [J.num 1, J.num 720]),
     ("observation_history", J.num 20),
     ("kp", J.num 7.5),
     ("kd", J.num 0.25),
     ("action_scale", J.num 0.5),
     ("use_imu", J.bool true),
     ("default_joint_pos", J.arr (pupper_default_joint_pos.map J.num)),
     ("joint_upper_limits", J.arr (pupper_joint_upper_limits.map J.num)),
     ("joint_lower_limits", J.arr (pupper_joint_lower_limits.map J.num)),
     ("normalizer", J.obj [("mean", J.arr [J.num 0, J.num 0]), ("std", J.arr [J.num 1, J.num 1])]),
     ("layers", J.arr
        [J.obj [("type", J.str "dense"), ("shape", J.arr [J.num 2, J.num 2]),
                ("activation", J.str "elu"),
                ("weights", J.arr [J.arr [J.arr [J.num 1, J.num 2], J.arr [J.num 3, J.num 4]],
                                   J.arr [J.num 0, J.num 0]])],
         J.obj [("type", J.str "dense"), ("shape", J.arr [J.num 2, J.num 1]),
                ("activation", J.str ""),
                ("weights", J.arr [J.arr [J.arr [J.num 5], J.arr [J.num 6]],
                                   J.arr [J.num 1]])]])]

/-- A source whose extracted layer stack violates dense-stack chaining:
hidden_0 has out_features 2 while hidden_1 has in_features 1. -/
def c2_input : J :=
  J.obj
    [("policy", J.obj [("params", J.obj [("params", J.obj
        [("hidden_0", J.obj
            [("kernel", J.arr [J.arr [J.num 1, J.num 2], J.arr [J.num 3, J.num 4]]),
             ("bias", J.arr [J.num 0, J.num 0])]),
         ("hidden_1", J.obj
            [("kernel", J.arr [J.arr [J.num 5]]),
             ("bias", J.arr [J.num 1])])])])])]

/-- The layer list extract_layer_params finds in c2_input. -/
def c2_layers : List LayerKB :=
  [LayerKB.mk (J.arr [J.arr [J.num 1, J.num 2], J.arr [J.num 3, J.num 4]]) (J.arr [J.num 0, J.num 0]),
   LayerKB.mk (J.arr [J.arr [J.num 5]]) (J.arr [J.num 1])]

/-- The document convert_to_rtneural emits for the chaining-violating
c2_input: shapes [2,2] then [1,1], no error anywhere. -/
def c2_doc : J :=
  J.obj
    [("in_shape", J.arr [J.num 1, J.num 720]),
     ("observation_history", J.num 20),
     ("kp", J.num 7.5),
     ("kd", J.num 0.25),
     ("action_scale", J.num 0.5),
     ("use_imu", J.bool true),
     ("default_joint_pos", J.arr (pupper_default_joint_pos.map J.num)),
     ("joint_upper_limits", J.arr (pupper_joint_upper_limits.map J.num)),
     ("joint_lower_limits", J.arr (pupper_joint_lower_limits.map J.num)),
     ("normalizer", J.obj []),
     ("layers", J.arr
        [J.obj [("type", J.str "dense"), ("shape", J.arr [J.num 2, J.num 2]),
                ("activation", J.str "elu"),
                ("weights", J.arr [J.arr [J.arr [J.num 1, J.num 2], J.arr [J.num 3, J.num 4]],
                                   J.arr [J.num 0, J.num 0]])],
         J.obj [("type", J.str "dense"), ("shape", J.arr [J.num 1, J.num 1]),
                ("activation", J.str ""),
                ("weights", J.arr [J.arr [J.arr [J.num 5]],
                                   J.arr [J.num 1]])]])]

/-- A parameter mapping holding both hidden_0 and Dense_0 for index 0. -/
def c3_params : J :=
  J.obj
    [("hidden_0", J.obj [("kernel", J.arr [J.arr [J.num 1]]), ("bias", J.arr [J.num 2])]),
     ("Dense_0", J.obj [("kernel", J.arr [J.arr [J.num 9]]), ("bias", J.arr [J.num 9])])]

/-- A one-layer source mapping without a normalizer key, for the C8 witness. -/
def c8_src : J :=
  J.obj [("policy", J.obj
    [("hidden_0", J.obj [("kernel", J.arr [J.arr [J.num 1]]), ("bias", J.arr [J.num 1])])])]

/-- The layer list extracted from c1_input. -/
def c1_layers : List LayerKB :=
  [LayerKB.mk (J.arr [J.arr [J.num 1, J.num 2], J.arr [J.num 3, J.num 4]]) (J.arr [J.num 0, J.num 0]),
   LayerKB.mk (J.arr [J.arr [J.num 5], J.arr [J.num 6]]) (J.arr [J.num 1])]

/-- A concrete one-by-one dense layer entry for the C10 witness. -/
def c10_layer (n : Rat) : J :=
  J.obj [("kernel", J.arr [J.arr [J.num n]]), ("bias", J.arr [J.num n])]

/-- The five-layer parameter dict of the C10 witness input. -/
def c10_layer_kvs : List (String × J) :=
  [("hidden_0", c10_layer 1), ("hidden_1", c10_layer 2), ("hidden_2", c10_layer 3),
   ("hidden_3", c10_layer 4), ("hidden_4", c10_layer 5)]

/-- A concrete five-layer source mapping with a std-before-mean normalizer,
exercising the key-order-insensitive document equality. -/
def c10_src : J :=
  J.obj
    [("policy", J.obj [("params", J.obj [("params", J.obj c10_layer_kvs)])]),
     ("normalizer", J.obj [("std", J.arr [J.num 2]), ("mean", J.arr [J.num 3])])]

/-- A successful lookup forces the receiver to be an object. -/
theorem get?_eq_some_obj {j : J} {k : String} {v : J} (h : j.get? k = some v) :
    ∃ kvs, j = J.obj kvs := by
  cases j <;> simp [J.get?] at h ⊢

/-- A successful lookup makes hasKey true. -/
theorem hasKey_of_get? {j : J} {k : String} {v : J} (h : j.get? k = some v) :
    j.hasKey k = true := by
  unfold J.hasKey
  rw [h]
  rfl

/-- getD returns the found value on a successful lookup. -/
theorem getD_of_get? {j : J} {k : String} {v : J} (d : J) (h : j.get? k = some v) :
    j.getD k d = v := by
  unfold J.getD
  rw [h]
  rfl

/-- getD returns the default when the key is absent. -/
theorem getD_of_hasKey_false {j : J} {k : String} (d : J) (h : j.hasKey k = false) :
    j.getD k d = d := by
  unfold J.hasKey at h
  unfold J.getD
  cases hg : j.get? k with
  | none => rfl
  | some v => rw [hg] at h; cases h

/-- A found key is among the association list's keys. -/
theorem mem_keys_of_jlookup {kvs : List (String × J)} {k : String} {v : J}
    (h : jlookup kvs k = some v) : k ∈ kvs.map Prod.fst := by
  induction kvs with
  | nil => cases h
  | cons p rest ih =>
    obtain ⟨k', v'⟩ := p
    by_cases hk : (k' == k) = true
    · have hk' : k' = k := beq_iff_eq.mp hk
      subst hk'
      exact List.mem_cons_self _ _
    · simp only [jlookup] at h
      rw [if_neg hk] at h
      simp only [List.map_cons]
      exact List.mem_cons_of_mem _ (ih h)

/-- An association list in which the five keys hidden_0 .. hidden_4 are all
found has at least five entries. -/
theorem five_keys_length {kvs : List (String × J)} {l0 l1 l2 l3 l4 : J}
    (h0 : jlookup kvs "hidden_0" = some l0)
    (h1 : jlookup kvs "hidden_1" = some l1)
    (h2 : jlookup kvs "hidden_2" = some l2)
    (h3 : jlookup kvs "hidden_3" = some l3)
    (h4 : jlookup kvs "hidden_4" = some l4) :
    5 ≤ kvs.length := by
  have hsub : ({"hidden_0", "hidden_1", "hidden_2", "hidden_3", "hidden_4"} : Finset String)
      ⊆ (kvs.map Prod.fst).toFinset := by
    intro x hx
    simp only [Finset.mem_insert, Finset.mem_singleton] at hx
    rcases hx with rfl | rfl | rfl | rfl | rfl
    · exact List.mem_toFinset.mpr (mem_keys_of_jlookup h0)
    · exact List.mem_toFinset.mpr (mem_keys_of_jlookup h1)
    · exact List.mem_toFinset.mpr (mem_keys_of_jlookup h2)
    · exact List.mem_toFinset.mpr (mem_keys_of_jlookup h3)
    · exact List.mem_toFinset.mpr (mem_keys_of_jlookup h4)
  have hcard : ({"hidden_0", "hidden_1", "hidden_2", "hidden_3", "hidden_4"} : Finset String).card = 5 := by
    decide
  calc 5 = ({"hidden_0", "hidden_1", "hidden_2", "hidden_3", "hidden_4"} : Finset String).card :=
        hcard.symm
    _ ≤ (kvs.map Prod.fst).toFinset.card := Finset.card_le_card hsub
    _ ≤ (kvs.map Prod.fst).length := (kvs.map Prod.fst).toFinset_card_le
    _ = kvs.length := List.length_map _ _

/-- The extraction loop stops when no candidate key matches. -/
theorem extract_loop_nil (d : J) (i f : Nat) (hsel : select_layer_name d i = none) :
    extract_loop d i (f + 1) = Except.ok [] := by
  simp only [extract_loop, hsel]

/-- The extraction loop consumes the selected layer, reading its kernel and
bias, and recurses at the next index. -/
theorem extract_loop_cons (d : J) (i f : Nat) (name : String) (lp kernel bias : J)
    (hsel : select_layer_name d i = some name) (hlp : d.get? name = some lp)
    (hk : lp.get? "kernel" = some kernel) (hb : lp.get? "bias" = some bias) :
    extract_loop d i (f + 1) =
      (extract_loop d (i + 1) f).map (fun rest => LayerKB.mk kernel bias :: rest) := by
  simp only [extract_loop, hsel, hlp, hk, hb]

/-- The probe picks the hidden name when it is present. -/
theorem select_hidden (d : J) (i : Nat) (h : d.hasKey ("hidden_" ++ toString i) = true) :
    select_layer_name d i = some ("hidden_" ++ toString i) := by
  unfold select_layer_name
  rw [h]
  rfl

/-- The probe fails when none of the three candidate names is present. -/
theorem select_none (d : J) (i : Nat)
    (h1 : d.hasKey ("hidden_" ++ toString i) = false)
    (h2 : d.hasKey (toString i) = false)
    (h3 : d.hasKey ("Dense_" ++ toString i) = false) :
    select_layer_name d i = none := by
  unfold select_layer_name
  rw [h1, h2, h3]
  rfl

/-- Successful conversion under known resolution and extraction results. -/
theorem convert_to_rtneural_ok_of (src : J) (cfg : Config) (nd md : J)
    (layers : List LayerKB)
    (h1 : resolveSource src = Except.ok (nd, md))
    (h2 : extract_layer_params (resolve_policy md) = Except.ok layers)
    (h3 : layers ≠ []) :
    convert_to_rtneural src cfg = Except.ok (build_doc cfg (build_normalizer nd) layers) := by
  unfold convert_to_rtneural
  rw [h1]
  show convert_core cfg nd md = _
  unfold convert_core
  rw [h2]
  cases layers with
  | nil => exact absurd rfl h3
  | cons a as => rfl

/-- Inversion of a successful conversion: the source resolved, extraction
succeeded with a non-empty layer list, and the document is the built one. -/
theorem convert_ok_inv {src : J} {cfg : Config} {doc : J}
    (h : convert_to_rtneural src cfg = Except.ok doc) :
    ∃ nd md layers, resolveSource src = Except.ok (nd, md) ∧
      extract_layer_params (resolve_policy md) = Except.ok layers ∧ layers ≠ [] ∧
      doc = build_doc cfg (build_normalizer nd) layers := by
  unfold convert_to_rtneural at h
  cases h1 : resolveSource src with
  | error e => rw [h1] at h; cases h
  | ok p =>
    obtain ⟨nd, md⟩ := p
    rw [h1] at h
    replace h : convert_core cfg nd md = Except.ok doc := h
    unfold convert_core at h
    cases h2 : extract_layer_params (resolve_policy md) with
    | error e => rw [h2] at h; cases h
    | ok layers =>
      rw [h2] at h
      cases layers with
      | nil => cases h
      | cons a as =>
        refine ⟨nd, md, a :: as, rfl, h2, List.cons_ne_nil a as, ?_⟩
        exact (Except.ok.inj h).symm

/-- The built document's normalizer field is the built normalizer. -/
theorem build_doc_get_normalizer (cfg : Config) (nm : J) (ls : List LayerKB) :
    (build_doc cfg nm ls).get? "normalizer" = some nm := rfl

/-- The built document's use_imu field is always the literal true. -/
theorem build_doc_get_use_imu (cfg : Config) (nm : J) (ls : List LayerKB) :
    (build_doc cfg nm ls).get? "use_imu" = some (J.bool true) := rfl

/-- The built document's layers field is the emitted record list. -/
theorem build_doc_get_layers (cfg : Config) (nm : J) (ls : List LayerKB) :
    (build_doc cfg nm ls).get? "layers" =
      some (J.arr (build_layer_records cfg.activation ls.length 0 ls)) := rfl

/-- The record list has one record per extracted layer. -/
theorem build_layer_records_length (act : String) (n : Nat) :
    ∀ (ls : List LayerKB) (i : Nat), (build_layer_records act n i ls).length = ls.length := by
  intro ls
  induction ls with
  | nil => intro i; rfl
  | cons l rest ih => intro i; simp [build_layer_records, ih]

/-- The record at position i of the emission loop started at offset j is the
record of layer j + i. -/
theorem build_layer_records_get (act : String) (n : Nat) :
    ∀ (ls : List LayerKB) (j i : Nat) (h : i < (build_layer_records act n j ls).length)
      (h' : i < ls.length),
      (build_layer_records act n j ls).get ⟨i, h⟩ =
        mk_layer_record act n (j + i) (ls.get ⟨i, h'⟩) := by
  intro ls
  induction ls with
  | nil => intro j i h h'; cases h'
  | cons l rest ih =>
    intro j i h h'
    cases i with
    | zero => rfl
    | succ m =>
      have hm : m < (build_layer_records act n (j + 1) rest).length := by
        rw [build_layer_records_length]
        exact Nat.lt_of_succ_lt_succ h'
      have hm' : m < rest.length := Nat.lt_of_succ_lt_succ h'
      have := ih (j + 1) m hm hm'
      simp only [build_layer_records, List.get_cons_succ]
      rw [this]
      congr 1
      omega

/-- A record's activation field: empty on the last index, configured
activation otherwise. -/
theorem mk_layer_record_get_activation (act : String) (n i : Nat) (l : LayerKB) :
    (mk_layer_record act n i l).get? "activation" =
      some (J.str (if i == n - 1 then "" else act)) := rfl

/-- C1: for the concrete input mapping of the end-to-end scenario, conversion
with the default configuration returns the document with exactly two layer
records -- record 0 of type "dense", shape [2,2], activation "elu", weights
[[[1,2],[3,4]],[0,0]]; record 1 of type "dense", shape [2,1], activation "",
weights [[[5],[6]],[1]] -- with in_shape [1,720] and normalizer mean [0,0]
and std [1,1]. -/
theorem c1_end_to_end_default_conversion :
    convert_to_rtneural c1_input defaultConfig = Except.ok c1_doc := rfl

/-- C2 counterexample: on c2_input, whose layer sequence violates the
dense-stack chaining invariant (out_features 2 followed by in_features 1),
convert_to_rtneural does not fail -- it returns a complete document, so the
claimed SchemaError failure does not happen. -/
theorem c2_counterexample_emits_despite_chaining_violation :
    convert_to_rtneural c2_input defaultConfig = Except.ok c2_doc := rfl

/-- C2 amended: the Schema Builder performs no chaining check at all --
whenever the source resolves and extraction yields a non-empty layer
sequence, conversion succeeds and emits a document, chaining invariant
violated or not. -/
theorem c2_amended_no_chaining_check (src : J) (cfg : Config) (nd md : J)
    (layers : List LayerKB)
    (h1 : resolveSource src = Except.ok (nd, md))
    (h2 : extract_layer_params (resolve_policy md) = Except.ok layers)
    (h3 : layers ≠ []) :
    ∃ doc, convert_to_rtneural src cfg = Except.ok doc :=
  ⟨_, convert_to_rtneural_ok_of src cfg nd md layers h1 h2 h3⟩

/-- C2 witness: the amended statement applied to the chaining-violating
c2_input. -/
theorem c2_amended_witness :
    ∃ doc, convert_to_rtneural c2_input defaultConfig = Except.ok doc :=
  c2_amended_no_chaining_check c2_input defaultConfig (J.obj []) c2_input c2_layers
    rfl rfl (List.cons_ne_nil _ _)

/-- C3: layer discovery probes hidden_i, then the numeric string i, then
Dense_i, first present key winning; and on a mapping holding both hidden_0
and Dense_0, extraction returns the entry stored under hidden_0. -/
theorem c3_layer_name_precedence (d : J) (i : Nat) :
    (d.hasKey ("hidden_" ++ toString i) = true →
      select_layer_name d i = some ("hidden_" ++ toString i)) ∧
    (d.hasKey ("hidden_" ++ toString i) = false → d.hasKey (toString i) = true →
      select_layer_name d i = some (toString i)) ∧
    (d.hasKey ("hidden_" ++ toString i) = false → d.hasKey (toString i) = false →
      d.hasKey ("Dense_" ++ toString i) = true →
      select_layer_name d i = some ("Dense_" ++ toString i)) ∧
    extract_layer_params c3_params =
      Except.ok [LayerKB.mk (J.arr [J.arr [J.num 1]]) (J.arr [J.num 2])] := by
  refine ⟨?_, ?_, ?_, rfl⟩
  · intro h
    simp [select_layer_name, h]
  · intro h1 h2
    simp [select_layer_name, h1, h2]
  · intro h1 h2 h3
    simp [select_layer_name, h1, h2, h3]

/-- C3 witness: at the concrete both-keys mapping and index 0, the probe
selects hidden_0. -/
theorem c3_witness :
    select_layer_name c3_params 0 = some "hidden_0" :=
  (c3_layer_name_precedence c3_params 0).1 rfl

/-- C5: in an emitted record, out_features is the bias length when the kernel
is an empty sequence, and the first kernel row's length when the kernel is
non-empty. -/
theorem c5_out_features_inference (act : String) (n i : Nat) (l : LayerKB)
    (bs : List J) (r : J) (rs : List J) :
    (l.kernel = J.arr [] → l.bias = J.arr bs → bs ≠ [] →
      (mk_layer_record act n i l).get? "shape" =
        some (J.arr [J.num 0, J.num (bs.length : Rat)])) ∧
    (l.kernel = J.arr (r :: rs) →
      (mk_layer_record act n i l).get? "shape" =
        some (J.arr [J.num ((rs.length + 1 : Nat) : Rat), J.num (pyLen r : Rat)])) := by
  constructor
  · intro hk hb _
    simp [mk_layer_record, hk, hb, pyTruthy, pyLen, pyHead0, J.get?, jlookup]
  · intro hk
    simp [mk_layer_record, hk, pyTruthy, pyLen, pyHead0, J.get?, jlookup]

/-- C5 witness: a bias-only degenerate layer with bias length 8 yields
out_features 8, not 0. -/
theorem c5_witness :
    (mk_layer_record "elu" 1 0 (LayerKB.mk (J.arr [])
        (J.arr [J.num 1, J.num 2, J.num 3, J.num 4, J.num 5, J.num 6, J.num 7, J.num 8]))).get? "shape" =
      some (J.arr [J.num 0, J.num 8]) := by
  have h := (c5_out_features_inference "elu" 1 0
    (LayerKB.mk (J.arr [])
      (J.arr [J.num 1, J.num 2, J.num 3, J.num 4, J.num 5, J.num 6, J.num 7, J.num 8]))
    [J.num 1, J.num 2, J.num 3, J.num 4, J.num 5, J.num 6, J.num 7, J.num 8]
    (J.num 0) []).1 rfl rfl (List.cons_ne_nil _ _)
  simpa using h

/-- C6: a top-level ordered sequence of length below 2 is rejected with an
error and no document; one of length at least 2 is destructured into
normalizer data (element 0) and model data (element 1), on which conversion
then proceeds. -/
theorem c6_list_source_handling (xs : List J) (cfg : Config) :
    (xs.length < 2 →
      convert_to_rtneural (J.arr xs) cfg =
        Except.error ("Unexpected list structure with " ++ toString xs.length ++ " elements")) ∧
    (∀ a b t, xs = a :: b :: t →
      resolveSource (J.arr xs) = Except.ok (a, b) ∧
      convert_to_rtneural (J.arr xs) cfg = convert_core cfg a b) := by
  constructor
  · intro h
    cases xs with
    | nil => rfl
    | cons a as =>
      cases as with
      | nil => rfl
      | cons b bs =>
        exfalso
        simp only [List.length_cons] at h
        omega
  · rintro a b t rfl
    exact ⟨rfl, rfl⟩

/-- C6 witness: a singleton top-level list is rejected with the list-structure
error. -/
theorem c6_witness :
    convert_to_rtneural (J.arr [J.num 3]) defaultConfig =
      Except.error "Unexpected list structure with 1 elements" :=
  (c6_list_source_handling [J.num 3] defaultConfig).1 (by decide)

/-- C7: when the resolved parameter mapping matches no candidate layer key at
index 0, conversion fails with the no-layers error instead of emitting a
document with an empty layer sequence. -/
theorem c7_zero_layers_rejected (src : J) (cfg : Config) (nd md : J)
    (h1 : resolveSource src = Except.ok (nd, md))
    (h2 : select_layer_name (resolve_layer_dict (resolve_policy md)) 0 = none) :
    convert_to_rtneural src cfg =
      Except.error "No layers found in checkpoint. Check the structure." := by
  unfold convert_to_rtneural
  rw [h1]
  show convert_core cfg nd md = _
  unfold convert_core
  have hext : extract_layer_params (resolve_policy md) = Except.ok [] := by
    unfold extract_layer_params
    exact extract_loop_nil _ 0 _ h2
  rw [hext]
  rfl

/-- C7 witness: a mapping whose policy params hold no layer keys at all is
rejected with the no-layers error. -/
theorem c7_witness :
    convert_to_rtneural (J.obj [("policy", J.obj [])]) defaultConfig =
      Except.error "No layers found in checkpoint. Check the structure." :=
  c7_zero_layers_rejected (J.obj [("policy", J.obj [])]) defaultConfig
    (J.obj []) (J.obj [("policy", J.obj [])]) rfl rfl

/-- An absent key makes the lookup return none. -/
theorem get?_none_of_hasKey_false {j : J} {k : String} (h : j.hasKey k = false) :
    j.get? k = none := by
  unfold J.hasKey at h
  cases hg : j.get? k with
  | none => rfl
  | some v => rw [hg] at h; cases h

/-- C4: every successful conversion yields a non-empty layer-record sequence
in which the last record carries the empty activation string and every other
record carries the configured activation. -/
theorem c4_last_layer_empty_activation (src : J) (cfg : Config) (doc : J)
    (h : convert_to_rtneural src cfg = Except.ok doc) :
    ∃ recs : List J, doc.get? "layers" = some (J.arr recs) ∧ 1 ≤ recs.length ∧
      ∀ (i : Nat) (hi : i < recs.length),
        (recs.get ⟨i, hi⟩).get? "activation" =
          some (J.str (if i == recs.length - 1 then "" else cfg.activation)) := by
  obtain ⟨nd, md, layers, h1, h2, h3, rfl⟩ := convert_ok_inv h
  have hlen : (build_layer_records cfg.activation layers.length 0 layers).length = layers.length :=
    build_layer_records_length _ _ _ _
  refine ⟨build_layer_records cfg.activation layers.length 0 layers,
    build_doc_get_layers cfg _ layers, ?_, ?_⟩
  · rw [hlen]
    cases layers with
    | nil => exact absurd rfl h3
    | cons a as => simp
  · intro i hi
    have hi' : i < layers.length := hlen ▸ hi
    rw [build_layer_records_get cfg.activation layers.length layers 0 i hi hi',
      mk_layer_record_get_activation]
    simp only [hlen, Nat.zero_add]

/-- C4 witness: the property instantiated on the concrete end-to-end input
under the default configuration. -/
theorem c4_witness :
    ∃ recs : List J, c1_doc.get? "layers" = some (J.arr recs) ∧ 1 ≤ recs.length ∧
      ∀ (i : Nat) (hi : i < recs.length),
        (recs.get ⟨i, hi⟩).get? "activation" =
          some (J.str (if i == recs.length - 1 then "" else defaultConfig.activation)) :=
  c4_last_layer_empty_activation c1_input defaultConfig c1_doc rfl

/-- C8: a source mapping with no normalizer key converts (given a non-empty
extraction) to a document whose normalizer is the empty mapping; and a
normalizer data mapping lacking mean, or lacking std, yields a built
normalizer lacking that same field, never an error. -/
theorem c8_normalizer_optional (src : J) (cfg : Config) (kvs : List (String × J))
    (layers : List LayerKB) (nd1 nd2 : J)
    (hsrc : src = J.obj kvs)
    (hno : src.hasKey "normalizer" = false)
    (hex : extract_layer_params (resolve_policy src) = Except.ok layers)
    (hne : layers ≠ [])
    (hm : nd1.hasKey "mean" = false)
    (hs : nd2.hasKey "std" = false) :
    (convert_to_rtneural src cfg).map (fun d => d.get? "normalizer") =
        Except.ok (some (J.obj [])) ∧
      (build_normalizer nd1).hasKey "mean" = false ∧
      (build_normalizer nd2).hasKey "std" = false := by
  refine ⟨?_, ?_, ?_⟩
  · subst hsrc
    have hjn : jlookup kvs "normalizer" = none := get?_none_of_hasKey_false hno
    have hres : resolveSource (J.obj kvs) = Except.ok (J.obj [], J.obj kvs) := by
      show Except.ok ((jlookup kvs "normalizer").getD (J.obj []), J.obj kvs) = _
      rw [hjn]
      rfl
    rw [convert_to_rtneural_ok_of (J.obj kvs) cfg (J.obj []) (J.obj kvs) layers hres hex hne]
    rfl
  · cases nd1 with
    | obj kvs1 =>
      have hjm : jlookup kvs1 "mean" = none := get?_none_of_hasKey_false hm
      show (build_normalizer (J.obj kvs1)).hasKey "mean" = false
      simp only [build_normalizer]
      rw [hjm]
      cases hjs : jlookup kvs1 "std" with
      | none => rfl
      | some s => rfl
    | num q => rfl
    | str s => rfl
    | bool b => rfl
    | arr xs => rfl
  · cases nd2 with
    | obj kvs2 =>
      have hjs : jlookup kvs2 "std" = none := get?_none_of_hasKey_false hs
      show (build_normalizer (J.obj kvs2)).hasKey "std" = false
      simp only [build_normalizer]
      rw [hjs]
      cases hjm : jlookup kvs2 "mean" with
      | none => rfl
      | some m => rfl
    | num q => rfl
    | str s => rfl
    | bool b => rfl
    | arr xs => rfl

/-- C8 witness: the property instantiated at a concrete normalizer-free source
and concrete partial normalizer mappings. -/
theorem c8_witness :
    (convert_to_rtneural c8_src defaultConfig).map (fun d => d.get? "normalizer") =
        Except.ok (some (J.obj [])) ∧
      (build_normalizer (J.obj [("std", J.arr [J.num 1])])).hasKey "mean" = false ∧
      (build_normalizer (J.obj [("mean", J.arr [J.num 1])])).hasKey "std" = false :=
  c8_normalizer_optional c8_src defaultConfig
    [("policy", J.obj
      [("hidden_0", J.obj [("kernel", J.arr [J.arr [J.num 1]]), ("bias", J.arr [J.num 1])])])]
    [LayerKB.mk (J.arr [J.arr [J.num 1]]) (J.arr [J.num 1])]
    (J.obj [("std", J.arr [J.num 1])]) (J.obj [("mean", J.arr [J.num 1])])
    rfl rfl rfl (List.cons_ne_nil _ _) rfl rfl

/-- Conversion of the end-to-end input under an arbitrary configuration:
the choice of configuration cannot make it fail, and the document is the
built one. -/
theorem convert_c1_any_config (cfg : Config) :
    convert_to_rtneural c1_input cfg =
      Except.ok (build_doc cfg
        (J.obj [("mean", J.arr [J.num 0, J.num 0]), ("std", J.arr [J.num 1, J.num 1])])
        c1_layers) := rfl

/-- C9 counterexample: use_imu is not overridable -- no configuration value
makes the converted document carry anything but use_imu = true (the source
function has no use_imu parameter and hardcodes True). -/
theorem c9_counterexample_use_imu_not_overridable :
    ¬ ∃ cfg : Config,
      (convert_to_rtneural c1_input cfg).map (fun d => d.get? "use_imu") ≠
        Except.ok (some (J.bool true)) := by
  rintro ⟨cfg, hne⟩
  apply hne
  rw [convert_c1_any_config cfg]
  rfl

/-- C9 amended: every configuration field of the source signature --
observation_size, observation_history, kp, kd, action_scale, activation, and
the three joint arrays -- is overridable and lands in the output document,
with the spec's stated defaults; use_imu is not a configuration field and is
always emitted as true. -/
theorem c9_amended_config_fields (cfg : Config) :
    (convert_to_rtneural c1_input cfg).map (fun d => d.get? "in_shape") =
        Except.ok (some (J.arr [J.num 1, J.num cfg.observation_size])) ∧
    (convert_to_rtneural c1_input cfg).map (fun d => d.get? "observation_history") =
        Except.ok (some (J.num cfg.observation_history)) ∧
    (convert_to_rtneural c1_input cfg).map (fun d => d.get? "kp") =
        Except.ok (some (J.num cfg.kp)) ∧
    (convert_to_rtneural c1_input cfg).map (fun d => d.get? "kd") =
        Except.ok (some (J.num cfg.kd)) ∧
    (convert_to_rtneural c1_input cfg).map (fun d => d.get? "action_scale") =
        Except.ok (some (J.num cfg.action_scale)) ∧
    (convert_to_rtneural c1_input cfg).map (fun d => d.get? "use_imu") =
        Except.ok (some (J.bool true)) ∧
    (convert_to_rtneural c1_input cfg).map (fun d => d.get? "default_joint_pos") =
        Except.ok (some (J.arr ((cfg.default_joint_pos.getD pupper_default_joint_pos).map J.num))) ∧
    (convert_to_rtneural c1_input cfg).map (fun d => d.get? "joint_upper_limits") =
        Except.ok (some (J.arr ((cfg.joint_upper_limits.getD pupper_joint_upper_limits).map J.num))) ∧
    (convert_to_rtneural c1_input cfg).map (fun d => d.get? "joint_lower_limits") =
        Except.ok (some (J.arr ((cfg.joint_lower_limits.getD pupper_joint_lower_limits).map J.num))) ∧
    (convert_to_rtneural c1_input cfg).map (fun d => d.get? "layers") =
        Except.ok (some (J.arr
          [J.obj [("type", J.str "dense"), ("shape", J.arr [J.num 2, J.num 2]),
                  ("activation", J.str cfg.activation),
                  ("weights", J.arr [J.arr [J.arr [J.num 1, J.num 2], J.arr [J.num 3, J.num 4]],
                                     J.arr [J.num 0, J.num 0]])],
           J.obj [("type", J.str "dense"), ("shape", J.arr [J.num 2, J.num 1]),
                  ("activation", J.str ""),
                  ("weights", J.arr [J.arr [J.arr [J.num 5], J.arr [J.num 6]],
                                     J.arr [J.num 1]])]])) ∧
    defaultConfig.observation_size = 720 ∧
    defaultConfig.observation_history = 20 ∧
    defaultConfig.kp = 7.5 ∧
    defaultConfig.kd = 0.25 ∧
    defaultConfig.action_scale = 0.5 ∧
    defaultConfig.activation = "elu" ∧
    defaultConfig.default_joint_pos = none ∧
    defaultConfig.joint_upper_limits = none ∧
    defaultConfig.joint_lower_limits = none :=
  ⟨rfl, rfl, rfl, rfl, rfl, rfl, rfl, rfl, rfl, rfl,
   rfl, rfl, rfl, rfl, rfl, rfl, rfl, rfl, rfl⟩

/-- Extraction-loop step with the successor index and fuel supplied as
separate arguments, convenient for chaining concrete indices. -/
theorem extract_loop_cons' (d : J) (i j f g : Nat) (name : String) (lp kernel bias : J)
    (hj : j = i + 1) (hg : g = f + 1)
    (hsel : select_layer_name d i = some name) (hlp : d.get? name = some lp)
    (hk : lp.get? "kernel" = some kernel) (hb : lp.get? "bias" = some bias) :
    extract_loop d i g =
      (extract_loop d j f).map (fun rest => LayerKB.mk kernel bias :: rest) := by
  subst hj
  subst hg
  exact extract_loop_cons d i f name lp kernel bias hsel hlp hk hb

/-- C10: on any source mapping that avoids the already-converted short-circuit,
whose policy.params.params holds exactly the five layer keys hidden_0 ..
hidden_4, each with a non-empty kernel and a bias, and whose normalizer entry
(when present) is a plain mean/std mapping of number lists, convert_policy and
convert_to_rtneural with the default configuration both succeed and produce
equal documents -- equal in the Python sense, i.e. with object key order
ignored (the two variants emit the layer-record fields in different
insertion orders). -/
theorem c10_convert_variants_agree
    (data p pp ppp : J) (kvs : List (String × J))
    (l0 l1 l2 l3 l4 r0 r1 r2 r3 r4 b0 b1 b2 b3 b4 : J)
    (k0 k1 k2 k3 k4 : List J)
    (hfmt : data.hasKey "layers" = false ∨ data.hasKey "in_shape" = false)
    (hp : data.get? "policy" = some p)
    (hpp : p.get? "params" = some pp)
    (hppp : pp.get? "params" = some ppp)
    (hobj : ppp = J.obj kvs)
    (h0 : ppp.get? "hidden_0" = some l0)
    (h0k : l0.get? "kernel" = some (J.arr (r0 :: k0)))
    (h0b : l0.get? "bias" = some b0)
    (h1 : ppp.get? "hidden_1" = some l1)
    (h1k : l1.get? "kernel" = some (J.arr (r1 :: k1)))
    (h1b : l1.get? "bias" = some b1)
    (h2 : ppp.get? "hidden_2" = some l2)
    (h2k : l2.get? "kernel" = some (J.arr (r2 :: k2)))
    (h2b : l2.get? "bias" = some b2)
    (h3 : ppp.get? "hidden_3" = some l3)
    (h3k : l3.get? "kernel" = some (J.arr (r3 :: k3)))
    (h3b : l3.get? "bias" = some b3)
    (h4 : ppp.get? "hidden_4" = some l4)
    (h4k : l4.get? "kernel" = some (J.arr (r4 :: k4)))
    (h4b : l4.get? "bias" = some b4)
    (h5h : ppp.hasKey "hidden_5" = false)
    (h5n : ppp.hasKey "5" = false)
    (h5d : ppp.hasKey "Dense_5" = false)
    (hnorm : data.get? "normalizer" = none ∨
      ∃ ms ss : List Rat,
        data.get? "normalizer" =
          some (J.obj [("mean", J.arr (ms.map J.num)), ("std", J.arr (ss.map J.num))]) ∨
        data.get? "normalizer" =
          some (J.obj [("std", J.arr (ss.map J.num)), ("mean", J.arr (ms.map J.num))])) :
    ∃ d1 d2, convert_policy data = Except.ok d1 ∧
      convert_to_rtneural data defaultConfig = Except.ok d2 ∧
      canon d1 = canon d2 := by
  obtain ⟨dkvs, hdata⟩ := get?_eq_some_obj hp
  subst hdata
  subst hobj
  -- the orbax-side extraction of the five layers
  have hld : resolve_layer_dict p = J.obj kvs := by
    have hk1 : p.hasKey "params" = true := hasKey_of_get? hpp
    have hd1 : p.getD "params" (J.obj []) = pp := getD_of_get? _ hpp
    have hk2 : pp.hasKey "params" = true := hasKey_of_get? hppp
    have hd2 : pp.getD "params" (J.obj []) = J.obj kvs := getD_of_get? _ hppp
    simp [resolve_layer_dict, hk1, hd1, hk2, hd2]
  obtain ⟨m, hm⟩ : ∃ m, kvs.length = m + 5 := by
    have h5 : 5 ≤ kvs.length := five_keys_length h0 h1 h2 h3 h4
    exact ⟨kvs.length - 5, by omega⟩
  have hsel0 : select_layer_name (J.obj kvs) 0 = some "hidden_0" :=
    select_hidden _ 0 (hasKey_of_get? h0)
  have hsel1 : select_layer_name (J.obj kvs) 1 = some "hidden_1" :=
    select_hidden _ 1 (hasKey_of_get? h1)
  have hsel2 : select_layer_name (J.obj kvs) 2 = some "hidden_2" :=
    select_hidden _ 2 (hasKey_of_get? h2)
  have hsel3 : select_layer_name (J.obj kvs) 3 = some "hidden_3" :=
    select_hidden _ 3 (hasKey_of_get? h3)
  have hsel4 : select_layer_name (J.obj kvs) 4 = some "hidden_4" :=
    select_hidden _ 4 (hasKey_of_get? h4)
  have hsel5 : select_layer_name (J.obj kvs) 5 = none :=
    select_none _ 5 h5h h5n h5d
  have s5 : extract_loop (J.obj kvs) 5 (m + 1) = Except.ok [] :=
    extract_loop_nil _ 5 m hsel5
  have s4 : extract_loop (J.obj kvs) 4 (m + 2) =
      Except.ok [LayerKB.mk (J.arr (r4 :: k4)) b4] := by
    rw [extract_loop_cons' (J.obj kvs) 4 5 (m + 1) (m + 2) "hidden_4" l4
      (J.arr (r4 :: k4)) b4 rfl rfl hsel4 h4 h4k h4b, s5]
    rfl
  have s3 : extract_loop (J.obj kvs) 3 (m + 3) =
      Except.ok [LayerKB.mk (J.arr (r3 :: k3)) b3, LayerKB.mk (J.arr (r4 :: k4)) b4] := by
    rw [extract_loop_cons' (J.obj kvs) 3 4 (m + 2) (m + 3) "hidden_3" l3
      (J.arr (r3 :: k3)) b3 rfl rfl hsel3 h3 h3k h3b, s4]
    rfl
  have s2 : extract_loop (J.obj kvs) 2 (m + 4) =
      Except.ok [LayerKB.mk (J.arr (r2 :: k2)) b2, LayerKB.mk (J.arr (r3 :: k3)) b3,
        LayerKB.mk (J.arr (r4 :: k4)) b4] := by
    rw [extract_loop_cons' (J.obj kvs) 2 3 (m + 3) (m + 4) "hidden_2" l2
      (J.arr (r2 :: k2)) b2 rfl rfl hsel2 h2 h2k h2b, s3]
    rfl
  have s1 : extract_loop (J.obj kvs) 1 (m + 5) =
      Except.ok [LayerKB.mk (J.arr (r1 :: k1)) b1, LayerKB.mk (J.arr (r2 :: k2)) b2,
        LayerKB.mk (J.arr (r3 :: k3)) b3, LayerKB.mk (J.arr (r4 :: k4)) b4] := by
    rw [extract_loop_cons' (J.obj kvs) 1 2 (m + 4) (m + 5) "hidden_1" l1
      (J.arr (r1 :: k1)) b1 rfl rfl hsel1 h1 h1k h1b, s2]
    rfl
  have s0 : extract_loop (J.obj kvs) 0 (m + 6) =
      Except.ok [LayerKB.mk (J.arr (r0 :: k0)) b0, LayerKB.mk (J.arr (r1 :: k1)) b1,
        LayerKB.mk (J.arr (r2 :: k2)) b2, LayerKB.mk (J.arr (r3 :: k3)) b3,
        LayerKB.mk (J.arr (r4 :: k4)) b4] := by
    rw [extract_loop_cons' (J.obj kvs) 0 1 (m + 5) (m + 6) "hidden_0" l0
      (J.arr (r0 :: k0)) b0 rfl rfl hsel0 h0 h0k h0b, s1]
    rfl
  have hext : extract_layer_params p =
      Except.ok [LayerKB.mk (J.arr (r0 :: k0)) b0, LayerKB.mk (J.arr (r1 :: k1)) b1,
        LayerKB.mk (J.arr (r2 :: k2)) b2, LayerKB.mk (J.arr (r3 :: k3)) b3,
        LayerKB.mk (J.arr (r4 :: k4)) b4] := by
    show extract_loop (resolve_layer_dict p) 0 (pyLen (resolve_layer_dict p) + 1) = _
    rw [hld]
    rw [show pyLen (J.obj kvs) + 1 = m + 6 by
      show kvs.length + 1 = m + 6
      omega]
    exact s0
  have hpol : resolve_policy (J.obj dkvs) = p := by
    have hp' : jlookup dkvs "policy" = some p := hp
    simp [resolve_policy, hp']
  have hext' : extract_layer_params (resolve_policy (J.obj dkvs)) =
      Except.ok [LayerKB.mk (J.arr (r0 :: k0)) b0, LayerKB.mk (J.arr (r1 :: k1)) b1,
        LayerKB.mk (J.arr (r2 :: k2)) b2, LayerKB.mk (J.arr (r3 :: k3)) b3,
        LayerKB.mk (J.arr (r4 :: k4)) b4] := by
    rw [hpol]
    exact hext
  have hor : convert_to_rtneural (J.obj dkvs) defaultConfig =
      Except.ok (build_doc defaultConfig
        (build_normalizer ((jlookup dkvs "normalizer").getD (J.obj [])))
        [LayerKB.mk (J.arr (r0 :: k0)) b0, LayerKB.mk (J.arr (r1 :: k1)) b1,
         LayerKB.mk (J.arr (r2 :: k2)) b2, LayerKB.mk (J.arr (r3 :: k3)) b3,
         LayerKB.mk (J.arr (r4 :: k4)) b4]) :=
    convert_to_rtneural_ok_of _ defaultConfig _ _ _ rfl hext' (List.cons_ne_nil _ _)
  -- the convert_policy side
  have hcond : (J.hasKey (J.obj dkvs) "layers" && J.hasKey (J.obj dkvs) "in_shape") = false := by
    rcases hfmt with h | h <;> simp [h]
  have hlay : build_policy_layers (J.obj kvs) layer_names 0 =
      Except.ok
        [J.obj [("type", J.str "dense"), ("activation", J.str "elu"),
                ("shape", J.arr [J.num (pyLen (J.arr (r0 :: k0)) : Rat), J.num (pyLen r0 : Rat)]),
                ("weights", J.arr [J.arr (r0 :: k0), b0])],
         J.obj [("type", J.str "dense"), ("activation", J.str "elu"),
                ("shape", J.arr [J.num (pyLen (J.arr (r1 :: k1)) : Rat), J.num (pyLen r1 : Rat)]),
                ("weights", J.arr [J.arr (r1 :: k1), b1])],
         J.obj [("type", J.str "dense"), ("activation", J.str "elu"),
                ("shape", J.arr [J.num (pyLen (J.arr (r2 :: k2)) : Rat), J.num (pyLen r2 : Rat)]),
                ("weights", J.arr [J.arr (r2 :: k2), b2])],
         J.obj [("type", J.str "dense"), ("activation", J.str "elu"),
                ("shape", J.arr [J.num (pyLen (J.arr (r3 :: k3)) : Rat), J.num (pyLen r3 : Rat)]),
                ("weights", J.arr [J.arr (r3 :: k3), b3])],
         J.obj [("type", J.str "dense"), ("activation", J.str ""),
                ("shape", J.arr [J.num (pyLen (J.arr (r4 :: k4)) : Rat), J.num (pyLen r4 : Rat)]),
                ("weights", J.arr [J.arr (r4 :: k4), b4])]] := by
    simp only [layer_names, build_policy_layers, h0, h0k, h0b, h1, h1k, h1b, h2, h2k, h2b,
      h3, h3k, h3b, h4, h4k, h4b, pyHeadE, Except.map]
    rfl
  have hcp : convert_policy (J.obj dkvs) =
      Except.ok (J.obj
        [("in_shape", J.arr [J.num 1, J.num 720]),
         ("observation_history", J.num 20),
         ("kp", J.num 7.5),
         ("kd", J.num 0.25),
         ("action_scale", J.num 0.5),
         ("use_imu", J.bool true),
         ("default_joint_pos",
           J.arr (([0.26, 0.0, -0.52, -0.26, 0.0, 0.52,
                    0.26, 0.0, -0.52, -0.26, 0.0, 0.52] : List Rat).map J.num)),
         ("joint_upper_limits",
           J.arr (([0.8, 1.2, 0.0, 0.0, 1.2, 1.2,
                    0.8, 1.2, 0.0, 0.0, 1.2, 1.2] : List Rat).map J.num)),
         ("joint_lower_limits",
           J.arr (([-0.0, -1.2, -1.2, -0.8, -1.2, -0.0,
                    -0.0, -1.2, -1.2, -0.8, -1.2, -0.0] : List Rat).map J.num)),
         ("normalizer", (jlookup dkvs "normalizer").getD (J.obj [])),
         ("layers", J.arr
           [J.obj [("type", J.str "dense"), ("activation", J.str "elu"),
                   ("shape", J.arr [J.num (pyLen (J.arr (r0 :: k0)) : Rat), J.num (pyLen r0 : Rat)]),
                   ("weights", J.arr [J.arr (r0 :: k0), b0])],
            J.obj [("type", J.str "dense"), ("activation", J.str "elu"),
                   ("shape", J.arr [J.num (pyLen (J.arr (r1 :: k1)) : Rat), J.num (pyLen r1 : Rat)]),
                   ("weights", J.arr [J.arr (r1 :: k1), b1])],
            J.obj [("type", J.str "dense"), ("activation", J.str "elu"),
                   ("shape", J.arr [J.num (pyLen (J.arr (r2 :: k2)) : Rat), J.num (pyLen r2 : Rat)]),
                   ("weights", J.arr [J.arr (r2 :: k2), b2])],
            J.obj [("type", J.str "dense"), ("activation", J.str "elu"),
                   ("shape", J.arr [J.num (pyLen (J.arr (r3 :: k3)) : Rat), J.num (pyLen r3 : Rat)]),
                   ("weights", J.arr [J.arr (r3 :: k3), b3])],
            J.obj [("type", J.str "dense"), ("activation", J.str ""),
                   ("shape", J.arr [J.num (pyLen (J.arr (r4 :: k4)) : Rat), J.num (pyLen r4 : Rat)]),
                   ("weights", J.arr [J.arr (r4 :: k4), b4])]])]) := by
    simp only [convert_policy, hcond, Bool.false_eq_true, if_false, hp, hpp, hppp, hlay]
    rfl
  rcases hnorm with hn | ⟨ms, ss, hn | hn⟩
  · have hn' : jlookup dkvs "normalizer" = none := hn
    rw [hn'] at hcp hor
    exact ⟨_, _, hcp, hor, by rfl⟩
  · have hn' : jlookup dkvs "normalizer" =
        some (J.obj [("mean", J.arr (ms.map J.num)), ("std", J.arr (ss.map J.num))]) := hn
    rw [hn'] at hcp hor
    exact ⟨_, _, hcp, hor, by rfl⟩
  · have hn' : jlookup dkvs "normalizer" =
        some (J.obj [("std", J.arr (ss.map J.num)), ("mean", J.arr (ms.map J.num))]) := hn
    rw [hn'] at hcp hor
    exact ⟨_, _, hcp, hor, by rfl⟩

/-- C10 witness: both converters succeed on the concrete five-layer source and
produce documents equal up to object key order. -/
theorem c10_witness :
    ∃ d1 d2, convert_policy c10_src = Except.ok d1 ∧
      convert_to_rtneural c10_src defaultConfig = Except.ok d2 ∧
      canon d1 = canon d2 :=
  c10_convert_variants_agree c10_src
    (J.obj [("params", J.obj [("params", J.obj c10_layer_kvs)])])
    (J.obj [("params", J.obj c10_layer_kvs)])
    (J.obj c10_layer_kvs)
    c10_layer_kvs
    (c10_layer 1) (c10_layer 2) (c10_layer 3) (c10_layer 4) (c10_layer 5)
    (J.arr [J.num 1]) (J.arr [J.num 2]) (J.arr [J.num 3]) (J.arr [J.num 4]) (J.arr [J.num 5])
    (J.arr [J.num 1]) (J.arr [J.num 2]) (J.arr [J.num 3]) (J.arr [J.num 4]) (J.arr [J.num 5])
    [] [] [] [] []
    (Or.inl rfl)
    rfl rfl rfl rfl
    rfl rfl rfl
    rfl rfl rfl
    rfl rfl rfl
    rfl rfl rfl
    rfl rfl rfl
    rfl rfl rfl
    (Or.inr ⟨[3], [2], Or.inr rfl⟩)
